import Mathlib

/-!
Shallow embedding of the need2no PAN detection engine
(src/n2n/primitives/card_pan.py, src/n2n/ocr/registry.py,
src/n2n/packs/global_pci_lite_v1.py) and proofs about it.

Python floats (bounding boxes, OCR confidences, thresholds) are modelled as
exact rationals; machine-level rounding plays no role in the properties
verified here.  Python dicts that are used in insertion order are modelled as
association lists with in-place update semantics.  Diagnostic trace output is
not modelled.
-/

namespace N2N

/-- Bounding box (x0, y0, x1, y1), mirroring the 4-tuples of floats used in
src/n2n/models.py. -/
structure Box where
  x0 : ℚ
  y0 : ℚ
  x1 : ℚ
  y1 : ℚ
deriving Repr, DecidableEq

/-- models.TextSpan. -/
structure TextSpan where
  text : String
  bbox : Box
  page : Int
  source : String := "text"
  ocr_conf : Option ℚ := none
deriving Repr, DecidableEq

/-- models.DetectionResult. -/
structure DetectionResult where
  field_id : String
  text : String
  raw : String
  bbox : Box
  page : Int
  source : String
  validators : List String
  severity : String
deriving Repr, DecidableEq

/-- models.DecisionReason. -/
structure DecisionReason where
  code : String
  description : String
deriving Repr, DecidableEq

/-- card_pan.CardPanConfig (floats as rationals). -/
structure CardPanConfig where
  ocr_conf_suspicion_threshold : ℚ := mkRat 3 4
  allow_confusable_normalization : Bool := true
  line_y_tol_px : ℚ := 8
  max_x_gap_px : ℚ := 40
  max_x_gap_ratio : ℚ := 1
  digitish_ratio : ℚ := mkRat 1 2
  stitch_window_min : Nat := 2
  stitch_window_max : Nat := 6
  allow_symbol_confusables : Bool := true
  allow_lowercase_b_to_6 : Bool := false
  min_token_conf_threshold : ℚ := mkRat 3 5
deriving Repr, DecidableEq

/-- card_pan.CONFUSABLE_MAP as a partial function on characters. -/
def CONFUSABLE_MAP (c : Char) : Option Char :=
  if c = 'O' then some '0'
  else if c = 'o' then some '0'
  else if c = 'I' then some '1'
  else if c = 'i' then some '1'
  else if c = 'l' then some '1'
  else if c = 'S' then some '5'
  else if c = 's' then some '5'
  else if c = 'B' then some '8'
  else if c = 'b' then some '8'
  else if c = 'Z' then some '2'
  else if c = 'z' then some '2'
  else none

/-- The second entry of card_pan.MASKED_MARKERS as it literally appears in
the source (line 23): not the bullet U+2022 but its cp1252 mojibake, the
three-codepoint string U+00E2 U+20AC U+00A2; Python membership on a
multi-character string is substring containment, modelled here as a scan for
that sequence. -/
def hasMojibakeBullet : List Char → Bool
  | a :: b :: c :: rest =>
      (a == 'â' && b == '€' && c == '¢') || hasMojibakeBullet (b :: c :: rest)
  | _ => false

/-- The marker test of card_pan._normalize_candidate over MASKED_MARKERS: an
asterisk anywhere, or the mojibake sequence as a substring.  A real bullet
U+2022 is not matched by either marker. -/
def containsMaskedMarker (s : List Char) : Bool :=
  s.any (fun c => c == '*') || hasMojibakeBullet s

/-- Membership in card_pan._ALLOWED_PATTERN_CHARS (digits plus the keys of the
confusable map); also the character class of PAN_RE. -/
def isAllowedPatternChar (c : Char) : Bool :=
  c.isDigit || (CONFUSABLE_MAP c).isSome

/-- Numeric value of an ASCII digit character (Python int(ch) on a digit). -/
def digitVal (c : Char) : Nat := c.toNat - 48

/-- The summation loop of card_pan._luhn: characters are consumed left to
right starting at index idx, and a value is doubled (with the minus-nine
correction) exactly when its index mod 2 equals the parity argument. -/
def luhnTotal (parity : Nat) : Nat → List Char → Nat
  | _, [] => 0
  | idx, ch :: rest =>
      (let value := digitVal ch
       if idx % 2 == parity then
         let v := value * 2
         if v > 9 then v - 9 else v
       else value) + luhnTotal parity (idx + 1) rest

/-- card_pan._luhn. -/
def luhn (digits : String) : Bool :=
  let parity := digits.length % 2
  luhnTotal parity 0 digits.data % 10 == 0

/-- Reference checksum sum, the spec reading: digits are consumed from the
right, and a digit is doubled exactly when the flag is set; the flag starts
cleared on the rightmost digit and alternates, so doubling falls on every
second digit counted from the right. -/
def luhnRevSum : List Nat → Bool → Nat
  | [], _ => 0
  | d :: rest, dbl =>
      (if dbl then
         let v := d * 2
         if v > 9 then v - 9 else v
       else d) + luhnRevSum rest (!dbl)

/-- Reference mod-10 checksum from the spec wording (doubling applied to every
second digit counted from the right). -/
def luhnValidRef (digits : String) : Bool :=
  luhnRevSum (digits.data.reverse.map digitVal) false % 10 == 0

/-- Python slicing/chunking used by card_pan._mask: successive chunks of four
characters. -/
def chunks4 : List Char → List (List Char)
  | [] => []
  | [a] => [[a]]
  | [a, b] => [[a, b]]
  | [a, b, c] => [[a, b, c]]
  | a :: b :: c :: d :: rest => [a, b, c, d] :: chunks4 rest

/-- Python " ".join over a list of character chunks. -/
def joinSpace : List (List Char) → List Char
  | [] => []
  | [x] => x
  | x :: y :: rest => x ++ ' ' :: joinSpace (y :: rest)

/-- card_pan._mask: star out all but the last four characters, then group into
blocks of four separated by spaces. -/
def mask (digits : String) : String :=
  let masked := List.replicate (digits.data.length - 4) '*' ++
      digits.data.drop (digits.data.length - 4)
  String.mk (joinSpace (chunks4 masked))

/-- card_pan._normalize_candidate: reject any candidate containing a masking
marker, optionally map confusable characters to digits, then keep only
digits. -/
def normalizeCandidate (candidate : String) (allowConfusable : Bool) : String :=
  if containsMaskedMarker candidate.data then "" else
  let cleaned :=
    if allowConfusable then candidate.data.map (fun ch => (CONFUSABLE_MAP ch).getD ch)
    else candidate.data
  String.mk (cleaned.filter Char.isDigit)

/-- Python str.isdigit: non-empty and all digits. -/
def pyIsDigit (s : String) : Bool :=
  !s.isEmpty && s.data.all Char.isDigit

/-- Separator characters admitted between digit groups by PAN_RE. -/
def isSepChar (c : Char) : Bool :=
  c == ' ' || c == '-'

/-- Index of the first non-separator character at or after j (fuel-bounded
scan used by the PAN_RE model). -/
def skipSepsFrom (s : List Char) : Nat → Nat → Nat
  | 0, j => j
  | fuel + 1, j =>
      if j < s.length then
        if isSepChar (s.getD j ' ') then skipSepsFrom s fuel (j + 1) else j
      else j

/-- The chain of allowed-character positions reachable from pos through
separator-only gaps: this is exactly the set of positions the repetitions of
PAN_RE can consume when a match starts at pos. -/
def chainFrom (s : List Char) : Nat → Nat → List Nat
  | 0, _ => []
  | fuel + 1, pos =>
      if pos < s.length then
        if isAllowedPatternChar (s.getD pos ' ') then
          pos :: chainFrom s fuel (skipSepsFrom s s.length (pos + 1))
        else []
      else []

/-- Whether the negative lookahead of PAN_RE can succeed after consuming r
chain tokens: either the chain is exhausted (what follows is separators and
then a non-allowed character or the end), or a separator sits directly after
the r-th token so the engine can stop before the next allowed character. -/
def lookaheadOk (ps : List Nat) (r : Nat) : Bool :=
  if r = ps.length then true
  else
    match ps[r]?, ps[r-1]? with
    | some next, some last => decide (last + 1 < next)
    | _, _ => false

/-- The repetition count the backtracking engine settles on: the largest
r between 13 and min(chain length, 19) whose lookahead can succeed. -/
def findRepCount (ps : List Nat) : Option Nat :=
  let hi := min ps.length 19
  (List.range' 13 (hi + 1 - 13)).reverse.find? (fun r => lookaheadOk ps r)

/-- The exclusive end position of the match: with the chain exhausted the
engine greedily consumes trailing separators; otherwise it stops one position
before the next allowed character (the last separator is left unconsumed so
the lookahead sees a separator). -/
def matchEnd (s : List Char) (ps : List Nat) (r : Nat) : Nat :=
  if r = ps.length then skipSepsFrom s s.length (ps.getLastD 0 + 1)
  else ps.getD r 0 - 1

/-- PAN_RE attempted at a single start position: the negative lookbehind
requires the preceding character (if any) to be outside the allowed class;
then 13–19 repetitions of an allowed character followed by separators must
match with the final lookahead satisfied. -/
def matchAt (s : List Char) (i : Nat) : Option (Nat × Nat) :=
  if (i != 0) && isAllowedPatternChar (s.getD (i - 1) ' ') then none
  else
    let ps := chainFrom s s.length i
    match findRepCount ps with
    | none => none
    | some r => some (i, matchEnd s ps r)

/-- Scanning loop of PAN_RE.finditer: try each start position left to right
and resume after the end of each (non-overlapping) match.  The max with i+1
only guards the fuel argument: a match spans at least 13 characters, so its
end is always beyond i and the scan resumes at the match end, as in Python. -/
def panFinditerAux (s : List Char) : Nat → Nat → List (Nat × Nat)
  | 0, _ => []
  | fuel + 1, i =>
      if i < s.length then
        match matchAt s i with
        | some (st, e) => (st, e) :: panFinditerAux s fuel (max e (i + 1))
        | none => panFinditerAux s fuel (i + 1)
      else []

/-- PAN_RE.finditer over a character list, returning (start, end) spans. -/
def panFinditer (s : List Char) : List (Nat × Nat) :=
  panFinditerAux s (s.length + 1) 0

/-- Per-character sanitization of find_card_pans: digits and separators pass
through, confusable letters pass through only when adjacent to a digit,
everything else becomes a space. -/
def sanitizeChar (prev : Option Char) (ch : Char) (next : Option Char) : Char :=
  if ch.isDigit || ch == ' ' || ch == '-' then ch
  else if (CONFUSABLE_MAP ch).isSome then
    let prevIsDigit := match prev with | some p => p.isDigit | none => false
    let nextIsDigit := match next with | some n => n.isDigit | none => false
    if prevIsDigit || nextIsDigit then ch else ' '
  else ' '

/-- The sanitization pass of find_card_pans, threading the previous character
and peeking at the next one. -/
def sanitizeGo : Option Char → List Char → List Char
  | _, [] => []
  | prev, ch :: rest => sanitizeChar prev ch rest.head? :: sanitizeGo (some ch) rest

/-- Sanitized copy of a span's text, as built by the character loop of
find_card_pans. -/
def sanitizeText (raw : List Char) : List Char :=
  sanitizeGo none raw

/-- Fuel-bounded loop of the start trim of find_card_pans. -/
def trimStartGo (t : List Char) (e : Nat) : Nat → Nat → Nat
  | 0, st => st
  | fuel + 1, st =>
      if st < e ∧ ¬isAllowedPatternChar (t.getD st ' ') then trimStartGo t e fuel (st + 1)
      else st

/-- The start-trimming loop of find_card_pans: advance start past characters
outside the allowed class (fuel e - st always suffices). -/
def trimStart (t : List Char) (e st : Nat) : Nat :=
  trimStartGo t e (e - st) st

/-- Fuel-bounded loop of the end trim of find_card_pans. -/
def trimEndGo (t : List Char) (st : Nat) : Nat → Nat → Nat
  | 0, e => e
  | fuel + 1, e =>
      if st < e ∧ ¬isAllowedPatternChar (t.getD (e - 1) ' ') then trimEndGo t st fuel (e - 1)
      else e

/-- The end-trimming loop of find_card_pans: retreat end past characters
outside the allowed class (fuel e always suffices). -/
def trimEnd (t : List Char) (st e : Nat) : Nat :=
  trimEndGo t st e e

/-- The per-candidate body of the single-span loop of find_card_pans
(normalize, length and digit checks, Luhn classification); threshold is the
clamped OCR-confidence suspicion threshold. -/
def processCandidate (span : TextSpan) (cfg : CardPanConfig) (threshold : ℚ)
    (rawCandidate : String) : Option DetectionResult :=
  let normalized := normalizeCandidate rawCandidate cfg.allow_confusable_normalization
  if ¬(13 ≤ normalized.length ∧ normalized.length ≤ 19) then none
  else if ¬pyIsDigit normalized then none
  else
    let passes := luhn normalized
    if passes then
      some ⟨"card_pan", mask normalized, normalized, span.bbox, span.page,
            span.source, ["luhn"], "hit"⟩
    else if span.source == "ocr" && decide (span.ocr_conf.getD 0 < threshold) then
      some ⟨"card_pan", mask normalized, normalized, span.bbox, span.page,
            span.source, ["regex"], "suspicion"⟩
    else none

/-- The single-span detection loop of find_card_pans: run the PAN_RE scanner
over the sanitized text, trim each match back to allowed characters, slice the
raw text at the trimmed span, and classify the candidate. -/
def singleSpanDetections (span : TextSpan) (cfg : CardPanConfig)
    (threshold : ℚ) : List DetectionResult :=
  let rawText := span.text.data
  let sanitized := sanitizeText rawText
  (panFinditer sanitized).filterMap fun m =>
    let st := trimStart sanitized m.2 m.1
    let e := trimEnd sanitized st m.2
    if e ≤ st then none
    else
      processCandidate span cfg threshold (String.mk ((rawText.drop st).take (e - st)))

/-- card_pan._map_stitch_char: the confusable mapping used by the stitcher,
with the optional lowercase-b-to-6 recovery mode and the percent-to-4 symbol
confusable. -/
def mapStitchChar (ch : Char) (cfg : CardPanConfig) (allowB6 : Bool) : Char :=
  if ch = 'O' ∨ ch = 'o' then '0'
  else if ch = 'I' ∨ ch = 'i' ∨ ch = 'l' then '1'
  else if ch = 'S' ∨ ch = 's' then '5'
  else if ch = 'B' then '8'
  else if ch = 'b' then
    if allowB6 && cfg.allow_lowercase_b_to_6 then '6' else '8'
  else if ch = 'Z' ∨ ch = 'z' then '2'
  else if ch = '%' then
    if cfg.allow_symbol_confusables then '4' else ch
  else ch

/-- Kernel-reducible rational addition (the Batteries arithmetic on ℚ is
marked irreducible, so the embedding computes on mkRat directly). -/
def qadd (a b : ℚ) : ℚ := mkRat (a.num * b.den + b.num * a.den) (a.den * b.den)

/-- Kernel-reducible rational subtraction. -/
def qsub (a b : ℚ) : ℚ := mkRat (a.num * b.den - b.num * a.den) (a.den * b.den)

/-- Kernel-reducible rational multiplication. -/
def qmul (a b : ℚ) : ℚ := mkRat (a.num * b.num) (a.den * b.den)

/-- Kernel-reducible rational division (0 when the divisor is 0). -/
def qdiv (a b : ℚ) : ℚ :=
  mkRat (if 0 ≤ b.num then a.num * b.den else -(a.num * b.den)) (a.den * b.num.natAbs)

/-- Embedding of a Python int as a rational. -/
def qofNat (n : Nat) : ℚ := mkRat (Int.ofNat n) 1

/-- Python max on rationals. -/
def qmax (a b : ℚ) : ℚ := if a ≤ b then b else a

/-- Python min on rationals. -/
def qmin (a b : ℚ) : ℚ := if a ≤ b then a else b

/-- Python abs on rationals. -/
def qabs (a : ℚ) : ℚ := if a < 0 then Rat.neg a else a

/-- Python str.lower() (ASCII case folding suffices for the characters this
code inspects). -/
def lowerStr (s : String) : String :=
  String.mk (s.data.map Char.toLower)

/-- Python whitespace characters stripped by str.strip(). -/
def isPyWhitespace (c : Char) : Bool :=
  c == ' ' || c == '\t' || c == '\n' || c == '\r' || c == '\x0b' || c == '\x0c'

/-- Python str.strip(). -/
def pyStrip (s : String) : String :=
  String.mk (((s.data.dropWhile isPyWhitespace).reverse.dropWhile isPyWhitespace).reverse)

/-- card_pan._y_center of a bounding box. -/
def yCenter (b : Box) : ℚ := qdiv (qadd b.y0 b.y1) 2

/-- Stable insertion used to model Python's stable sorted(): x is placed
before the first element whose key is not smaller. -/
def insertLe {α : Type} (le : α → α → Bool) (x : α) : List α → List α
  | [] => [x]
  | y :: rest => if le x y then x :: y :: rest else y :: insertLe le x rest

/-- Stable sort (model of Python sorted() with a key function; le must be the
total preorder "key of first ≤ key of second"). -/
def sortStable {α : Type} (le : α → α → Bool) : List α → List α
  | [] => []
  | x :: rest => insertLe le x (sortStable le rest)

/-- Lexicographic comparison of the (y-center, x0) sort key of
card_pan._group_lines. -/
def lineKeyLe (a b : TextSpan) : Bool :=
  decide (yCenter a.bbox < yCenter b.bbox) ||
    (yCenter a.bbox == yCenter b.bbox && decide (a.bbox.x0 ≤ b.bbox.x0))

/-- The accumulation loop of card_pan._group_lines, threading the produced
lines, the current line and the running center.  Like the Python original,
the running center is compared through an "or" that treats the value 0 as
unset. -/
def groupLinesGo (tol : ℚ) :
    List TextSpan → List (List TextSpan) → List TextSpan → ℚ → List (List TextSpan)
  | [], lines, current, _ => if current.isEmpty then lines else lines ++ [current]
  | span :: rest, lines, current, cc =>
      let center := yCenter span.bbox
      if current.isEmpty then groupLinesGo tol rest lines [span] center
      else
        let ccRead := if cc = 0 then center else cc
        if qabs (qsub center ccRead) ≤ tol then
          let current2 := current ++ [span]
          let cc2 := qdiv (qadd (qmul cc (qofNat (current2.length - 1))) center)
            (qofNat current2.length)
          groupLinesGo tol rest lines current2 cc2
        else
          groupLinesGo tol rest (lines ++ [current]) [span] center

/-- card_pan._group_lines: sort by (y-center, x0) and cluster by vertical
center proximity. -/
def groupLines (spans : List TextSpan) (tol : ℚ) : List (List TextSpan) :=
  groupLinesGo tol (sortStable lineKeyLe spans) [] [] 0

/-- card_pan._is_digitish. -/
def isDigitish (text : String) (cfg : CardPanConfig) : Bool :=
  if text.isEmpty then false
  else
    let allowedLetters : Char → Bool := fun ch =>
      (CONFUSABLE_MAP ch).isSome || (cfg.allow_lowercase_b_to_6 && ch == 'b')
    let relevantChars := text.data.filter (fun ch => ch.isAlphanum || ch == '%')
    if relevantChars.isEmpty then false
    else
      let digitish := relevantChars.countP (fun ch =>
        ch.isDigit || allowedLetters ch || (ch == '%' && cfg.allow_symbol_confusables))
      decide (qdiv (qofNat digitish) (qofNat relevantChars.length) ≥ cfg.digitish_ratio)

/-- card_pan._gaps_within_limits. -/
def gapsWithinLimits (window : List TextSpan) (cfg : CardPanConfig) : Bool :=
  (window.zip window.tail).all fun lr =>
    let gap := qsub lr.2.bbox.x0 lr.1.bbox.x1
    if gap ≤ 0 then true
    else
      let leftH := qmax 0 (qsub lr.1.bbox.y1 lr.1.bbox.y0)
      let rightH := qmax 0 (qsub lr.2.bbox.y1 lr.2.bbox.y0)
      let avgRaw := qdiv (qadd leftH rightH) 2
      let avgH := if avgRaw = 0 then 1 else avgRaw
      !(decide (gap > cfg.max_x_gap_px) && decide (gap > qmul cfg.max_x_gap_ratio avgH))

/-- card_pan._normalize_stitched_candidate: strip everything outside
digits/letters/percent, then map each non-digit through the stitch confusable
table and keep only characters that became digits. -/
def normalizeStitchedCandidate (candidateRaw : String) (cfg : CardPanConfig)
    (allowB6 : Bool) : String :=
  let cleaned := candidateRaw.data.filter (fun ch => ch.isDigit || ch.isAlpha || ch == '%')
  String.mk (cleaned.filterMap (fun ch =>
    if ch.isDigit then some ch
    else
      let mapped := mapStitchChar ch cfg allowB6
      if mapped.isDigit then some mapped else none))

/-- card_pan._average_conf (missing confidences count as 0). -/
def avgConf (window : List TextSpan) : ℚ :=
  qdiv ((window.map (fun s => s.ocr_conf.getD 0)).foldl qadd 0) (qofNat window.length)

/-- Minimum token confidence of a window (missing confidences count as 0). -/
def minConf (window : List TextSpan) : ℚ :=
  match window.map (fun s => s.ocr_conf.getD 0) with
  | [] => 0
  | c :: rest => rest.foldl qmin c

/-- card_pan._window_bbox: union of the window's boxes. -/
def windowBBox (window : List TextSpan) : Box :=
  match window with
  | [] => ⟨0, 0, 0, 0⟩
  | s :: rest =>
      rest.foldl (fun acc sp =>
        ⟨qmin acc.x0 sp.bbox.x0, qmin acc.y0 sp.bbox.y0,
         qmax acc.x1 sp.bbox.x1, qmax acc.y1 sp.bbox.y1⟩) s.bbox

/-- The per-candidate bookkeeping record stored in the stitcher's dedup
dictionary. -/
structure StitchMeta where
  detection : DetectionResult
  avg_conf : ℚ
  window_size : Nat
  x0 : ℚ
  severity : String
  raw : String
  normalized : String
  min_conf : ℚ
deriving Repr, DecidableEq

/-- card_pan._is_better_candidate: severity rank, then average confidence,
then window size, then leftmost position. -/
def isBetterCandidate (neu old : StitchMeta) : Bool :=
  let so : String → Nat := fun s => if s == "hit" then 2 else if s == "suspicion" then 1 else 0
  if so neu.severity ≠ so old.severity then decide (so neu.severity > so old.severity)
  else if neu.avg_conf ≠ old.avg_conf then decide (neu.avg_conf > old.avg_conf)
  else if neu.window_size ≠ old.window_size then decide (neu.window_size > old.window_size)
  else decide (neu.x0 < old.x0)

/-- The concatenated text of a window, Python " ".join of the window's span
texts. -/
def windowRaw (window : List TextSpan) : String :=
  String.mk (joinSpace (window.map (fun s => s.text.data)))

/-- The checksum outcome of a window after the optional lowercase-b-to-6
fallback of the stitcher (lines 206-218 of card_pan.py): returns (passes,
digits used, whether the fallback was used). -/
def stitchFallback (window : List TextSpan) (cfg : CardPanConfig) : Bool × String × Bool :=
  let candidateRaw := windowRaw window
  let digitsPrimary := normalizeStitchedCandidate candidateRaw cfg false
  let passesPrimary := luhn digitsPrimary
  if ¬passesPrimary = true ∧ cfg.allow_lowercase_b_to_6 = true ∧
      window.any (fun s => (lowerStr s.text).data.any (fun c => c == 'b')) then
    let digitsB6 := normalizeStitchedCandidate candidateRaw cfg true
    if 13 ≤ digitsB6.length ∧ digitsB6.length ≤ 19 ∧ luhn digitsB6 then
      (true, digitsB6, true)
    else (passesPrimary, digitsPrimary, false)
  else (passesPrimary, digitsPrimary, false)

/-- Evaluation of one sliding window of the stitcher (lines 195-263 of
card_pan.py): digit-ish and gap acceptance, normalization with the optional
b-to-6 fallback, Luhn classification, and construction of the candidate
record keyed by (page, normalized digits). -/
def evalWindow (page : Int) (window : List TextSpan) (cfg : CardPanConfig)
    (threshold : ℚ) : Option ((Int × String) × StitchMeta) :=
  if ¬window.all (fun s => isDigitish s.text cfg) then none
  else if ¬gapsWithinLimits window cfg then none
  else
    let candidateRaw := windowRaw window
    let digitsPrimary := normalizeStitchedCandidate candidateRaw cfg false
    if ¬(13 ≤ digitsPrimary.length ∧ digitsPrimary.length ≤ 19) then none
    else
      let avgC := avgConf window
      let minC := minConf window
      let fb := stitchFallback window cfg
      let lowConf := decide (avgC < threshold) || decide (minC < cfg.min_token_conf_threshold)
      let bbox := windowBBox window
      if fb.1 then
        let validators := ["regex", "stitch", "luhn"] ++
          (if fb.2.2 then ["confusable:b->6"] else [])
        let det : DetectionResult :=
          ⟨"card_pan", mask fb.2.1, pyStrip candidateRaw, bbox, page, "ocr", validators, "hit"⟩
        some ((page, fb.2.1),
          ⟨det, avgC, window.length, bbox.x0, "hit", pyStrip candidateRaw, fb.2.1, minC⟩)
      else if lowConf then
        let validators := ["regex", "stitch", "near_pan"]
        let det : DetectionResult :=
          ⟨"card_pan", mask fb.2.1, pyStrip candidateRaw, bbox, page, "ocr", validators,
           "suspicion"⟩
        some ((page, fb.2.1),
          ⟨det, avgC, window.length, bbox.x0, "suspicion", pyStrip candidateRaw, fb.2.1, minC⟩)
      else none

/-- In-place conditional update of the stitcher's candidate dictionary
(Python dict: replacement keeps the key's position, a new key is appended). -/
def upsert (key : Int × String) (meta : StitchMeta) :
    List ((Int × String) × StitchMeta) → List ((Int × String) × StitchMeta)
  | [] => [(key, meta)]
  | (k, m) :: rest =>
      if k = key then
        (if isBetterCandidate meta m then (k, meta) else (k, m)) :: rest
      else (k, m) :: upsert key meta rest

/-- The sliding windows of one ordered line, sizes window_min..min(window_max,
length), each size over all start offsets (empty when the line is shorter
than window_min). -/
def windowsOfLine (ordered : List TextSpan) (wmin wmax : Nat) : List (List TextSpan) :=
  if ordered.length < wmin then []
  else
    let maxWindow := min wmax ordered.length
    ((List.range' wmin (maxWindow + 1 - wmin)).map (fun size =>
      (List.range (ordered.length - size + 1)).map (fun start =>
        (ordered.drop start).take size))).flatten

/-- Grouping of spans by page in first-occurrence order (Python dict
setdefault-append). -/
def addToGroup : List (Int × List TextSpan) → TextSpan → List (Int × List TextSpan)
  | [], s => [(s.page, [s])]
  | (p, g) :: rest, s =>
      if p = s.page then (p, g ++ [s]) :: rest
      else (p, g) :: addToGroup rest s

/-- card_pan._stitch_ocr_spans grouping of OCR spans by page. -/
def groupByPage (spans : List TextSpan) : List (Int × List TextSpan) :=
  spans.foldl addToGroup []

/-- The triple loop of the stitcher: per page, per line, per sliding window,
classify the window (each line sorted left to right) and fold the surviving
candidates into the dedup dictionary. -/
def stitchCandidates (grouped : List (Int × List TextSpan)) (cfg : CardPanConfig)
    (threshold : ℚ) (wmin wmax : Nat) : List ((Int × String) × StitchMeta) :=
  grouped.foldl (fun acc pg =>
    (groupLines pg.2 cfg.line_y_tol_px).foldl (fun acc line =>
      (windowsOfLine (sortStable (fun a b => decide (a.bbox.x0 ≤ b.bbox.x0)) line)
          wmin wmax).foldl (fun acc window =>
        match evalWindow pg.1 window cfg threshold with
        | some km => upsert km.1 km.2 acc
        | none => acc) acc) acc) []

/-- card_pan._stitch_ocr_spans (trace bookkeeping omitted): restrict to OCR
spans, group by page and line, slide windows, classify each window and
deduplicate by (page, normalized digits), returning the surviving detections
in key insertion order. -/
def stitchOcrSpans (spans : List TextSpan) (cfg : CardPanConfig)
    (threshold : ℚ) : List DetectionResult :=
  let ocrSpans := spans.filter (fun s => lowerStr s.source == "ocr")
  if ocrSpans.isEmpty then []
  else
    let windowMin := max 2 cfg.stitch_window_min
    let windowMax := max windowMin cfg.stitch_window_max
    (stitchCandidates (groupByPage ocrSpans) cfg threshold windowMin windowMax).map
      (fun km => km.2.detection)

/-- card_pan.find_card_pans (trace bookkeeping omitted): single-span
detections over all spans followed by the stitched detections. -/
def findCardPans (spans : List TextSpan) (cfg : CardPanConfig) : List DetectionResult :=
  let threshold := qmax 0 (qmin 1 cfg.ocr_conf_suspicion_threshold)
  (spans.map (fun span => singleSpanDetections span cfg threshold)).flatten
    ++ stitchOcrSpans spans cfg threshold

/-- card_pan.find_pan_candidates_from_roi_text; confStats is the avg_conf
entry of the conf_stats dictionary (none when the dictionary is absent). -/
def findPanCandidatesFromRoiText (text : String) (confStats : Option ℚ)
    (bboxUnion : Box) (page : Int) : List DetectionResult :=
  if text.isEmpty then []
  else
    let cleaned := pyStrip text
    let candidates : List String :=
      match (panFinditer cleaned.data).head? with
      | some m => [String.mk ((cleaned.data.drop m.1).take (m.2 - m.1))]
      | none =>
          let digits := String.mk (cleaned.data.filter Char.isDigit)
          if 13 ≤ digits.length ∧ digits.length ≤ 19 then [digits] else []
    candidates.filterMap fun candidate =>
      let normalized := normalizeCandidate candidate true
      if ¬(13 ≤ normalized.length ∧ normalized.length ≤ 19) then none
      else
        let passesLuhn := luhn normalized
        let validators0 := ["regex", "roi"] ++ (if passesLuhn then ["luhn"] else [])
        let severity0 := if passesLuhn then "hit" else "suspicion"
        let confNote := confStats.getD 0
        let sv :=
          if confNote < mkRat 1 2 ∧ passesLuhn = true then
            ("suspicion", validators0 ++ ["low_conf"])
          else (severity0, validators0)
        some ⟨"card_pan", mask normalized, normalized, bboxUnion, page, "roi_ocr",
              sv.2, sv.1⟩

/-- ocr.backends OCRResult (fields relevant to the registry loop; word
geometry and wall-clock timings are not modelled). -/
structure OCRResultM where
  text : String
  avg_conf : ℚ
  engine : String
deriving Repr, DecidableEq

/-- One backend of the chain together with the outcome of its ocr_roi call:
ok is a returned result, error is a raised exception (BackendUnavailable or
any other runtime failure — the registry handles both identically). -/
structure OCRBackendRun where
  name : String
  outcome : Except String OCRResultM
deriving Repr

/-- One diagnostic attempt record of ocr.registry.run_ocr_backends (preview
and timing fields not modelled). -/
structure OCRAttempt where
  engine : String
  success : Bool
  error : Option String
deriving Repr, DecidableEq

/-- The synthetic empty result appended when every backend failed. -/
def syntheticOcrResult : OCRResultM := ⟨"", 0, "none"⟩

/-- Attempt record produced for one backend invocation. -/
def attemptOf (b : OCRBackendRun) : OCRAttempt :=
  match b.outcome with
  | Except.ok _ => ⟨b.name, true, none⟩
  | Except.error e => ⟨b.name, false, some e⟩

/-- ocr.registry.run_ocr_backends: iterate the chain, record one attempt per
backend, collect successful results, continue past failures, and fall back to
one synthetic empty result when every backend failed. -/
def runOcrBackends (backends : List OCRBackendRun) : List OCRResultM × List OCRAttempt :=
  let ra := backends.foldl (fun acc b =>
    match b.outcome with
    | Except.ok r => (acc.1 ++ [r], acc.2 ++ [⟨b.name, true, none⟩])
    | Except.error e => (acc.1, acc.2 ++ [⟨b.name, false, some e⟩])) ([], [])
  if ra.1.isEmpty then (ra.1 ++ [syntheticOcrResult], ra.2) else ra

/-- The artifacts dictionary of the PCI-lite pack (fixed keys). -/
structure ArtifactMap where
  input_pdf : Option String := none
  highlight_pdf : Option String := none
  redacted_pdf : Option String := none
  report_json : Option String := none
  ocr_text : Option String := none
  ocr_spans : Option String := none
deriving Repr, DecidableEq

/-- models.DecisionReport (engine version, suggested redactions and trace not
modelled). -/
structure DecisionReport where
  pack_id : String
  decision : String
  reasons : List DecisionReason
  detections : List DetectionResult
  artifacts : ArtifactMap
  action : Option String := none
deriving Repr, DecidableEq

/-- packs.global_pci_lite_v1.PACK_ID. -/
def PCI_PACK_ID : String := "global.pci_lite.v1"

/-- packs.global_pci_lite_v1.MIN_CHAR_COUNT. -/
def MIN_CHAR_COUNT : Nat := 30

/-- packs.global_pci_lite_v1.CARD_PAN_CFG. -/
def CARD_PAN_CFG : CardPanConfig := { allow_lowercase_b_to_6 := true }

/-- packs.global_pci_lite_v1.REASONS. -/
def PCI_REASONS (code : String) : String :=
  if code == "EXTRACTION_EMPTY" then
    "Extraction produced no spans or insufficient characters to inspect."
  else if code == "PAN_SUSPECT_OCR_LOW_CONF" then
    "OCR-derived PAN candidate failed Luhn with low confidence."
  else if code == "PAN_REMAINS_AFTER_REDACTION" then
    "PAN still detectable after redaction."
  else ""

/-- packs.global_pci_lite_v1._build_report. -/
def buildReportPci (decision : String) (reasons : List DecisionReason)
    (detections : List DetectionResult) (artifacts : ArtifactMap) : DecisionReport :=
  ⟨PCI_PACK_ID, decision, reasons, detections, artifacts, none⟩

/-- packs.global_pci_lite_v1._write_report: stores the report path into the
report's own artifacts before serializing. -/
def writeReportPci (report : DecisionReport) (reportPath : String) : DecisionReport :=
  { report with artifacts := { report.artifacts with report_json := some reportPath } }

/-- packs.global_pci_lite_v1.run_pack with the filesystem and rendering
collaborators abstracted: spans is the extraction of the input document,
highlightPath / redactedPath are the artifact paths returned by the renderers,
and reSpans is the re-extraction of the redacted artifact (consulted only when
redaction runs).  The returned value is the finalized decision report. -/
def runPackPciLite (inputPdf : String) (spans : List TextSpan)
    (debugOcrText debugOcrSpans : Option String)
    (highlightPath redactedPath reportPath : String)
    (reSpans : List TextSpan) : DecisionReport :=
  let artifactMap : ArtifactMap :=
    { input_pdf := some inputPdf, ocr_text := debugOcrText, ocr_spans := debugOcrSpans }
  if (spans.map (fun span => (pyStrip span.text).length)).sum < MIN_CHAR_COUNT then
    let am := { artifactMap with highlight_pdf := some highlightPath }
    writeReportPci
      (buildReportPci "REJECTED"
        [⟨"EXTRACTION_EMPTY", PCI_REASONS "EXTRACTION_EMPTY"⟩] [] am) reportPath
  else
    let detections := findCardPans spans CARD_PAN_CFG
    let am := { artifactMap with highlight_pdf := some highlightPath }
    let suspicions := detections.filter (fun det => det.severity == "suspicion")
    if ¬suspicions.isEmpty then
      writeReportPci
        (buildReportPci "REVIEW"
          [⟨"PAN_SUSPECT_OCR_LOW_CONF", PCI_REASONS "PAN_SUSPECT_OCR_LOW_CONF"⟩]
          detections am) reportPath
    else
      let hits := detections.filter (fun det => det.severity == "hit")
      if ¬hits.isEmpty then
        let am2 := { am with redacted_pdf := some redactedPath }
        let reDetections := findCardPans reSpans CARD_PAN_CFG
        if ¬reDetections.isEmpty then
          writeReportPci
            (buildReportPci "REVIEW"
              [⟨"PAN_REMAINS_AFTER_REDACTION", PCI_REASONS "PAN_REMAINS_AFTER_REDACTION"⟩]
              detections am2) reportPath
        else
          writeReportPci (buildReportPci "CONFIRMED" [] detections am2) reportPath
      else
        writeReportPci (buildReportPci "CONFIRMED" [] detections am) reportPath

section LuhnEquivalence

/-- Apply the Luhn doubling correction when the flag is set. -/
def dblIf (f : Bool) (d : Nat) : Nat :=
  if f then (let v := d * 2; if v > 9 then v - 9 else v) else d

/-- The doubling flag of the position n steps after a position whose flag is
b: flags alternate, so it is b exactly when n is even. -/
def parityFlag (n : Nat) (b : Bool) : Bool :=
  if n % 2 = 0 then b else !b

theorem luhnRevSum_cons (d : Nat) (rest : List Nat) (b : Bool) :
    luhnRevSum (d :: rest) b = dblIf b d + luhnRevSum rest (!b) := rfl

theorem parityFlag_succ (n : Nat) (b : Bool) :
    parityFlag (n + 1) b = parityFlag n (!b) := by
  rcases Nat.mod_two_eq_zero_or_one n with h | h <;>
    · have h' : (n + 1) % 2 = 1 - n % 2 := by omega
      simp [parityFlag, h, h']

theorem luhnTotal_eq_revSum (l : List Char) :
    ∀ (idx parity : Nat), parity < 2 →
      luhnTotal parity idx l =
        luhnRevSum (l.map digitVal) (decide (idx % 2 = parity)) := by
  induction l with
  | nil => intro idx parity _; rfl
  | cons ch rest ih =>
      intro idx parity hp
      have hflip : (!decide (idx % 2 = parity)) = decide ((idx + 1) % 2 = parity) := by
        rcases Nat.mod_two_eq_zero_or_one idx with h | h <;>
          · have h' : (idx + 1) % 2 = 1 - idx % 2 := by omega
            interval_cases parity <;> simp [h, h']
      simp only [luhnTotal, List.map_cons, luhnRevSum_cons, ih (idx + 1) parity hp, hflip,
        dblIf]
      by_cases h : idx % 2 = parity <;> simp [h]

theorem luhnRevSum_append (l : List Nat) (d : Nat) (b : Bool) :
    luhnRevSum (l ++ [d]) b =
      luhnRevSum l b + dblIf (parityFlag l.length b) d := by
  induction l generalizing b with
  | nil => simp [luhnRevSum_cons, luhnRevSum, parityFlag, dblIf]
  | cons a t ih =>
      simp only [List.cons_append, luhnRevSum_cons, List.length_cons, ih (!b),
        parityFlag_succ]
      omega

theorem luhnRevSum_reverse (l : List Nat) :
    luhnRevSum l.reverse false = luhnRevSum l (decide (l.length % 2 = 0)) := by
  induction l with
  | nil => rfl
  | cons a t ih =>
      have h1 : parityFlag t.length false = decide ((t.length + 1) % 2 = 0) := by
        rcases Nat.mod_two_eq_zero_or_one t.length with h | h <;>
          · have h' : (t.length + 1) % 2 = 1 - t.length % 2 := by omega
            simp [parityFlag, h, h']
      have h2 : (!decide ((t.length + 1) % 2 = 0)) = decide (t.length % 2 = 0) := by
        rcases Nat.mod_two_eq_zero_or_one t.length with h | h <;>
          · have h' : (t.length + 1) % 2 = 1 - t.length % 2 := by omega
            simp [h, h']
      simp only [List.reverse_cons, luhnRevSum_append, ih, List.length_reverse,
        List.length_cons, luhnRevSum_cons, h1, h2]
      omega

/-- card_pan._luhn agrees with the right-to-left reference checksum on every
string. -/
theorem luhn_eq_luhnValidRef (s : String) : luhn s = luhnValidRef s := by
  have hlen : s.length = s.data.length := rfl
  have hp : s.length % 2 < 2 := Nat.mod_lt _ (by omega)
  have h0 : decide (0 % 2 = s.length % 2) = decide (s.data.length % 2 = 0) := by
    rw [Nat.zero_mod, hlen, decide_eq_decide]
    exact eq_comm
  have hmain :
      luhnTotal (s.length % 2) 0 s.data =
        luhnRevSum (s.data.reverse.map digitVal) false := by
    rw [luhnTotal_eq_revSum s.data 0 (s.length % 2) hp, h0,
      ← List.length_map s.data digitVal, ← luhnRevSum_reverse, List.map_reverse]
  simp only [luhn, luhnValidRef, hmain]

end LuhnEquivalence

/-- C2: for every digit string of length 13 to 19, _luhn agrees with the
reference mod-10 checksum that doubles every second digit counted from the
right (the agreement in fact holds for every string); in particular
"4242424242424242" passes and "4242424242424243" fails. -/
theorem luhn_matches_reference_checksum :
    (∀ s : String, 13 ≤ s.length → s.length ≤ 19 → s.data.all Char.isDigit = true →
      luhn s = luhnValidRef s) ∧
    luhn "4242424242424242" = true ∧ luhn "4242424242424243" = false :=
  ⟨fun s _ _ _ => luhn_eq_luhnValidRef s, by decide, by decide⟩

/-- Witness for C2 at the concrete digit string "4242424242424242". -/
theorem luhn_matches_reference_checksum_witness :
    luhn "4242424242424242" = luhnValidRef "4242424242424242" :=
  luhn_matches_reference_checksum.1 "4242424242424242" (by decide) (by decide) (by decide)

/-- C8: the normalization confusable table maps O/o to 0, I/i/l to 1, S/s to
5, B to 8 and Z/z to 2 (and lowercase b to 8, never 6), while the stitcher's
character mapper sends lowercase b to 6 exactly when both the per-call and the
configured lowercase-b recovery flags are enabled, and to 8 otherwise. -/
theorem confusable_table_and_b6_recovery :
    CONFUSABLE_MAP 'O' = some '0' ∧ CONFUSABLE_MAP 'o' = some '0' ∧
    CONFUSABLE_MAP 'I' = some '1' ∧ CONFUSABLE_MAP 'i' = some '1' ∧
    CONFUSABLE_MAP 'l' = some '1' ∧ CONFUSABLE_MAP 'S' = some '5' ∧
    CONFUSABLE_MAP 's' = some '5' ∧ CONFUSABLE_MAP 'B' = some '8' ∧
    CONFUSABLE_MAP 'Z' = some '2' ∧ CONFUSABLE_MAP 'z' = some '2' ∧
    CONFUSABLE_MAP 'b' = some '8' ∧
    (∀ cfg : CardPanConfig,
      mapStitchChar 'b' cfg true = (if cfg.allow_lowercase_b_to_6 then '6' else '8')) ∧
    (∀ cfg : CardPanConfig, mapStitchChar 'b' cfg false = '8') ∧
    normalizeCandidate "4O12 8888 8888 1881" true = "4012888888881881" ∧
    normalizeCandidate "b242424242424242" true = "8242424242424242" := by
  refine ⟨by decide, by decide, by decide, by decide, by decide, by decide, by decide,
    by decide, by decide, by decide, by decide, ?_, ?_, by decide, by decide⟩
  · intro cfg
    cases h : cfg.allow_lowercase_b_to_6 <;> simp [mapStitchChar, h]
  · intro cfg
    simp [mapStitchChar]

/-- The fold of run_ocr_backends appends one attempt per backend and one
result per successful backend. -/
theorem runOcrBackends_foldl (bs : List OCRBackendRun) :
    ∀ (rs : List OCRResultM) (atts : List OCRAttempt),
      bs.foldl (fun acc b =>
        match b.outcome with
        | Except.ok r => (acc.1 ++ [r], acc.2 ++ [⟨b.name, true, none⟩])
        | Except.error e => (acc.1, acc.2 ++ [⟨b.name, false, some e⟩])) (rs, atts) =
      (rs ++ bs.filterMap (fun b => b.outcome.toOption), atts ++ bs.map attemptOf) := by
  induction bs with
  | nil => intro rs atts; simp
  | cons b t ih =>
      intro rs atts
      cases hb : b.outcome with
      | ok r => simp [List.foldl_cons, hb, ih, attemptOf, Except.toOption]
      | error e => simp [List.foldl_cons, hb, ih, attemptOf, Except.toOption]

/-- C9: run_ocr_backends logs exactly one attempt per backend of the chain
(so a failure never aborts the remaining backends), records each failing
backend as an unsuccessful attempt carrying its error, never returns an empty
result list, and returns exactly the one synthetic empty result when every
backend failed. -/
theorem run_ocr_backends_failure_isolation (backends : List OCRBackendRun) :
    (runOcrBackends backends).2 = backends.map attemptOf ∧
    (∀ b ∈ backends, ∀ e, b.outcome = Except.error e →
      attemptOf b = ⟨b.name, false, some e⟩) ∧
    (runOcrBackends backends).1 ≠ [] ∧
    ((∀ b ∈ backends, b.outcome.toOption = none) →
      (runOcrBackends backends).1 = [syntheticOcrResult]) := by
  have hfold := runOcrBackends_foldl backends [] []
  simp only [List.nil_append] at hfold
  have hdef : runOcrBackends backends =
      (if (backends.filterMap (fun b => b.outcome.toOption)).isEmpty then
        (backends.filterMap (fun b => b.outcome.toOption) ++ [syntheticOcrResult],
         backends.map attemptOf)
      else (backends.filterMap (fun b => b.outcome.toOption), backends.map attemptOf)) := by
    rw [runOcrBackends, hfold]
  refine ⟨?_, ?_, ?_, ?_⟩
  · rw [hdef]
    by_cases h : (backends.filterMap (fun b => b.outcome.toOption)).isEmpty
    · rw [if_pos h]
    · rw [if_neg h]
  · intro b _ e he
    simp [attemptOf, he]
  · rw [hdef]
    by_cases h : (backends.filterMap (fun b => b.outcome.toOption)).isEmpty
    · rw [if_pos h]
      simp
    · rw [if_neg h]
      intro hc
      have hc' : backends.filterMap (fun b => b.outcome.toOption) = [] := hc
      rw [hc'] at h
      exact h rfl
  · intro hall
    have hnil : backends.filterMap (fun b => b.outcome.toOption) = [] :=
      List.filterMap_eq_nil_iff.mpr hall
    rw [hdef, if_pos (by rw [hnil]; rfl), hnil]
    rfl

/-- Witness for C9: a one-backend chain whose only backend is unavailable is
recorded as a failed attempt and yields the synthetic empty result. -/
theorem run_ocr_backends_failure_isolation_witness :
    attemptOf ⟨"apple", Except.error "model missing"⟩ =
      ⟨"apple", false, some "model missing"⟩ ∧
    (runOcrBackends [⟨"apple", Except.error "model missing"⟩]).1 = [syntheticOcrResult] :=
  ⟨(run_ocr_backends_failure_isolation [⟨"apple", Except.error "model missing"⟩]).2.1
      ⟨"apple", Except.error "model missing"⟩ (by simp) "model missing" rfl,
   (run_ocr_backends_failure_isolation [⟨"apple", Except.error "model missing"⟩]).2.2.2
      (by intro b hb; simp at hb; rw [hb]; rfl)⟩

/-- The normalization output consists of digits only. -/
theorem normalizeCandidate_all_isDigit (c : String) (a : Bool) :
    (normalizeCandidate c a).data.all Char.isDigit = true := by
  unfold normalizeCandidate
  split
  · rfl
  · apply List.all_eq_true.mpr
    intro x hx
    exact (List.mem_filter.mp hx).2

/-- A non-empty normalization output passes Python's isdigit test. -/
theorem pyIsDigit_normalizeCandidate (c : String) (a : Bool)
    (h : 1 ≤ (normalizeCandidate c a).length) :
    pyIsDigit (normalizeCandidate c a) = true := by
  have hne : normalizeCandidate c a ≠ "" := by
    intro he
    rw [he] at h
    simp at h
  have h2 : (normalizeCandidate c a).isEmpty = false := by
    rw [Bool.eq_false_iff]
    intro hE
    exact hne ((String.isEmpty_iff _).mp hE)
  unfold pyIsDigit
  rw [normalizeCandidate_all_isDigit, h2]
  rfl

/-- C3: the claim (and spec) say any candidate containing an asterisk or a
bullet normalizes to the empty string, so masked displays never produce a
detection.  The source's MASKED_MARKERS however holds the cp1252 mojibake
"â€¢" instead of the bullet U+2022, so only asterisks and that literal
three-codepoint sequence suppress a candidate: a candidate carrying a real
bullet normalizes to live digits, and a bullet-masked display adjacent to
live digits is stitched into a hit detection by PAN_RE, while the identical
asterisk-masked text is suppressed. -/
theorem bullet_masked_display_not_suppressed :
    normalizeCandidate "•4242424242424242" true = "4242424242424242" ∧
    normalizeCandidate "â€¢4242424242424242" true = "" ∧
    normalizeCandidate "*4242424242424242" true = "" ∧
    findCardPans [⟨"4242424242422**** **** **** 4242", ⟨0, 0, 100, 20⟩, 0, "text", none⟩]
      {} = [] ∧
    (∃ d ∈ findCardPans
      [⟨"4242424242422•••• •••• •••• 4242", ⟨0, 0, 100, 20⟩, 0, "text", none⟩] {},
      d.severity = "hit" ∧ d.raw = "42424242424224242") := by
  refine ⟨by decide, by decide, by decide, by decide, by decide⟩

/-- C6: for a single-token candidate normalizing to 13-19 digits, a checksum
pass yields the hit detection with validators ["luhn"]; a checksum fail yields
the suspicion detection exactly when the span is OCR-sourced with confidence
below the clamped threshold, and is discarded otherwise. -/
theorem single_token_candidate_classification
    (span : TextSpan) (cfg : CardPanConfig) (rawCandidate : String)
    (h13 : 13 ≤ (normalizeCandidate rawCandidate cfg.allow_confusable_normalization).length)
    (h19 : (normalizeCandidate rawCandidate cfg.allow_confusable_normalization).length ≤ 19) :
    (luhn (normalizeCandidate rawCandidate cfg.allow_confusable_normalization) = true →
      processCandidate span cfg (qmax 0 (qmin 1 cfg.ocr_conf_suspicion_threshold)) rawCandidate =
        some ⟨"card_pan",
          mask (normalizeCandidate rawCandidate cfg.allow_confusable_normalization),
          normalizeCandidate rawCandidate cfg.allow_confusable_normalization,
          span.bbox, span.page, span.source, ["luhn"], "hit"⟩) ∧
    (luhn (normalizeCandidate rawCandidate cfg.allow_confusable_normalization) = false →
      span.source = "ocr" →
      span.ocr_conf.getD 0 < qmax 0 (qmin 1 cfg.ocr_conf_suspicion_threshold) →
      processCandidate span cfg (qmax 0 (qmin 1 cfg.ocr_conf_suspicion_threshold)) rawCandidate =
        some ⟨"card_pan",
          mask (normalizeCandidate rawCandidate cfg.allow_confusable_normalization),
          normalizeCandidate rawCandidate cfg.allow_confusable_normalization,
          span.bbox, span.page, span.source, ["regex"], "suspicion"⟩) ∧
    (luhn (normalizeCandidate rawCandidate cfg.allow_confusable_normalization) = false →
      ¬(span.source = "ocr" ∧
          span.ocr_conf.getD 0 < qmax 0 (qmin 1 cfg.ocr_conf_suspicion_threshold)) →
      processCandidate span cfg (qmax 0 (qmin 1 cfg.ocr_conf_suspicion_threshold)) rawCandidate =
        none) := by
  have hdig : pyIsDigit (normalizeCandidate rawCandidate cfg.allow_confusable_normalization)
      = true :=
    pyIsDigit_normalizeCandidate _ _ (by omega)
  refine ⟨?_, ?_, ?_⟩
  · intro hl
    unfold processCandidate
    rw [if_neg (not_not_intro ⟨h13, h19⟩), if_neg (not_not_intro hdig), if_pos hl]
  · intro hl hsrc hconf
    unfold processCandidate
    rw [if_neg (not_not_intro ⟨h13, h19⟩), if_neg (not_not_intro hdig),
      if_neg (by simp [hl]), if_pos (by simp [hsrc, hconf])]
  · intro hl hno
    unfold processCandidate
    rw [if_neg (not_not_intro ⟨h13, h19⟩), if_neg (not_not_intro hdig),
      if_neg (by simp [hl]), if_neg (by simpa using hno)]

/-- Witness for C6: the OCR span of the repository's low-confidence test
(confidence 0.60, threshold 0.75, Luhn-failing candidate) yields the
suspicion detection. -/
theorem single_token_candidate_classification_witness :
    processCandidate ⟨"4242 4242 4242 4243", ⟨10, 20, 200, 40⟩, 0, "ocr", some (mkRat 3 5)⟩ {}
        (qmax 0 (qmin 1 ({} : CardPanConfig).ocr_conf_suspicion_threshold))
        "4242 4242 4242 4243" =
      some ⟨"card_pan", "**** **** **** 4243", "4242424242424243", ⟨10, 20, 200, 40⟩, 0,
        "ocr", ["regex"], "suspicion"⟩ :=
  (single_token_candidate_classification
      ⟨"4242 4242 4242 4243", ⟨10, 20, 200, 40⟩, 0, "ocr", some (mkRat 3 5)⟩ {}
      "4242 4242 4242 4243" (by decide) (by decide)).2.1 (by decide) rfl (by decide)

/-- Four OCR tokens holding 17 digits: their stitched window is accepted and
classified, but the detection's raw field is the joined window text. -/
def stitchLenDemo : List TextSpan :=
  [⟨"42424", ⟨0, 0, 40, 20⟩, 0, "ocr", some (mkRat 1 10)⟩,
   ⟨"42424", ⟨45, 0, 85, 20⟩, 0, "ocr", some (mkRat 1 10)⟩,
   ⟨"42424", ⟨90, 0, 130, 20⟩, 0, "ocr", some (mkRat 1 10)⟩,
   ⟨"42", ⟨135, 0, 175, 20⟩, 0, "ocr", some (mkRat 1 10)⟩]

/-- C5 counterexample: a stitched detection whose raw field is 20 characters
long (and contains separators, so it is not a digit string at all). -/
theorem stitched_detection_raw_exceeds_19 :
    ∃ d ∈ findCardPans stitchLenDemo {},
      19 < d.raw.length ∧ d.raw.data.all Char.isDigit = false := by
  decide

/-- C4 counterexample: the ROI parser downgrades a Luhn-valid candidate read
at low confidence to suspicion severity while keeping the "luhn" validator
tag. -/
theorem roi_suspicion_carries_luhn_tag :
    ∃ d ∈ findPanCandidatesFromRoiText "4242424242424242" (some 0) ⟨0, 0, 100, 40⟩ 0,
      d.severity = "suspicion" ∧ "luhn" ∈ d.validators := by
  decide

/-- The stitcher's normalization output consists of digits only. -/
theorem normalizeStitched_all_isDigit (c : String) (cfg : CardPanConfig) (a : Bool) :
    (normalizeStitchedCandidate c cfg a).data.all Char.isDigit = true := by
  unfold normalizeStitchedCandidate
  apply List.all_eq_true.mpr
  intro x hx
  obtain ⟨y, _, hy⟩ := List.mem_filterMap.mp hx
  split at hy
  · exact (Option.some.inj hy) ▸ (by assumption)
  · dsimp only at hy
    split at hy
    · exact (Option.some.inj hy) ▸ (by assumption)
    · exact absurd hy (by simp)

/-- The digits selected by the stitcher's fallback step are 13-19 pure digits
whenever the primary normalization was. -/
theorem stitchFallback_digits (window : List TextSpan) (cfg : CardPanConfig)
    (h13 : 13 ≤ (normalizeStitchedCandidate (windowRaw window) cfg false).length)
    (h19 : (normalizeStitchedCandidate (windowRaw window) cfg false).length ≤ 19) :
    13 ≤ (stitchFallback window cfg).2.1.length ∧
    (stitchFallback window cfg).2.1.length ≤ 19 ∧
    (stitchFallback window cfg).2.1.data.all Char.isDigit = true := by
  unfold stitchFallback
  dsimp only
  split
  · split
    · rename_i hcond
      exact ⟨hcond.1, hcond.2.1, normalizeStitched_all_isDigit _ _ _⟩
    · exact ⟨h13, h19, normalizeStitched_all_isDigit _ _ _⟩
  · exact ⟨h13, h19, normalizeStitched_all_isDigit _ _ _⟩

/-- Full description of a successful single-span candidate classification:
the detection's raw is the 13-19 digit normalization, its display text is the
mask of those digits, and severity/validators are either hit/["luhn"] or
suspicion/["regex"]. -/
theorem processCandidate_spec (span : TextSpan) (cfg : CardPanConfig) (thr : ℚ)
    (raw : String) (d : DetectionResult)
    (h : processCandidate span cfg thr raw = some d) :
    d.raw = normalizeCandidate raw cfg.allow_confusable_normalization ∧
    13 ≤ d.raw.length ∧ d.raw.length ≤ 19 ∧
    d.raw.data.all Char.isDigit = true ∧
    d.text = mask d.raw ∧
    ((d.severity = "hit" ∧ d.validators = ["luhn"]) ∨
     (d.severity = "suspicion" ∧ d.validators = ["regex"])) := by
  unfold processCandidate at h
  dsimp only at h
  split at h
  · exact absurd h (by simp)
  · split at h
    · exact absurd h (by simp)
    · rename_i hlen _
      rw [not_not] at hlen
      split at h
      · obtain rfl := Option.some.inj h
        exact ⟨rfl, hlen.1, hlen.2, normalizeCandidate_all_isDigit _ _, rfl,
          Or.inl ⟨rfl, rfl⟩⟩
      · split at h
        · obtain rfl := Option.some.inj h
          exact ⟨rfl, hlen.1, hlen.2, normalizeCandidate_all_isDigit _ _, rfl,
            Or.inr ⟨rfl, rfl⟩⟩
        · exact absurd h (by simp)

/-- Every detection of the single-span loop comes from a successful candidate
classification. -/
theorem singleSpan_mem (span : TextSpan) (cfg : CardPanConfig) (thr : ℚ)
    (d : DetectionResult) (h : d ∈ singleSpanDetections span cfg thr) :
    ∃ raw, processCandidate span cfg thr raw = some d := by
  unfold singleSpanDetections at h
  obtain ⟨m, _, hm⟩ := List.mem_filterMap.mp h
  dsimp only at hm
  split at hm
  · exact absurd hm (by simp)
  · exact ⟨_, hm⟩

/-- Full description of a successfully classified window: the stored
detection's raw is the stripped window text, its display text is the mask of
the 13-19 fallback digits (which also form the dedup key), it is tagged
"stitch", and it is either a hit carrying "luhn" or a suspicion with
validators exactly ["regex", "stitch", "near_pan"]. -/
theorem evalWindow_spec (page : Int) (window : List TextSpan) (cfg : CardPanConfig)
    (thr : ℚ) (k : Int × String) (m : StitchMeta)
    (h : evalWindow page window cfg thr = some (k, m)) :
    m.detection.raw = pyStrip (windowRaw window) ∧
    (∃ digits : String, 13 ≤ digits.length ∧ digits.length ≤ 19 ∧
      digits.data.all Char.isDigit = true ∧
      m.detection.text = mask digits ∧ k = (page, digits)) ∧
    "stitch" ∈ m.detection.validators ∧
    ((m.detection.severity = "hit" ∧ "luhn" ∈ m.detection.validators) ∨
     (m.detection.severity = "suspicion" ∧
       m.detection.validators = ["regex", "stitch", "near_pan"])) := by
  unfold evalWindow at h
  split at h
  · exact absurd h (by simp)
  · split at h
    · exact absurd h (by simp)
    · dsimp only at h
      split at h
      · exact absurd h (by simp)
      · rename_i hlen
        rw [not_not] at hlen
        have hdig := stitchFallback_digits window cfg hlen.1 hlen.2
        split at h
        · obtain ⟨hk, hm⟩ := Prod.mk.inj (Option.some.inj h)
          subst hk
          subst hm
          refine ⟨rfl, ⟨(stitchFallback window cfg).2.1, hdig.1, hdig.2.1, hdig.2.2,
            rfl, rfl⟩, by simp, Or.inl ⟨rfl, by simp⟩⟩
        · split at h
          · obtain ⟨hk, hm⟩ := Prod.mk.inj (Option.some.inj h)
            subst hk
            subst hm
            refine ⟨rfl, ⟨(stitchFallback window cfg).2.1, hdig.1, hdig.2.1, hdig.2.2,
              rfl, rfl⟩, by simp, Or.inr ⟨rfl, rfl⟩⟩
          · exact absurd h (by simp)

/-- The dictionary update of the stitcher preserves any property shared by
the stored entries and the inserted entry. -/
theorem upsert_forall {P : (Int × String) × StitchMeta → Prop} (key : Int × String)
    (meta : StitchMeta) (l : List ((Int × String) × StitchMeta))
    (hl : ∀ x ∈ l, P x) (hm : P (key, meta)) : ∀ x ∈ upsert key meta l, P x := by
  induction l with
  | nil =>
      intro x hx
      rw [upsert] at hx
      rw [List.mem_singleton.mp hx]
      exact hm
  | cons a rest ih =>
      obtain ⟨k, mm⟩ := a
      intro x hx
      rw [upsert] at hx
      split at hx
      · rename_i hk
        rcases List.mem_cons.mp hx with h1 | h2
        · subst h1
          split
          · rw [hk]
            exact hm
          · exact hl (k, mm) (by simp)
        · exact hl x (List.mem_cons_of_mem _ h2)
      · rcases List.mem_cons.mp hx with h1 | h2
        · subst h1
          exact hl (k, mm) (by simp)
        · exact ih (fun y hy => hl y (List.mem_cons_of_mem _ hy)) x h2

/-- Invariant preservation along a left fold. -/
theorem foldl_preserve {α β : Type} (step : β → α → β) (P : β → Prop)
    (hstep : ∀ acc a, P acc → P (step acc a)) :
    ∀ (l : List α) (acc : β), P acc → P (l.foldl step acc) := by
  intro l
  induction l with
  | nil => intro acc h; exact h
  | cons a t ih => intro acc h; exact ih _ (hstep acc a h)

/-- Every entry of the stitcher's dedup dictionary was produced by some
successfully classified window. -/
theorem stitchCandidates_forall (grouped : List (Int × List TextSpan))
    (cfg : CardPanConfig) (thr : ℚ) (wmin wmax : Nat) :
    ∀ y ∈ stitchCandidates grouped cfg thr wmin wmax,
      ∃ (page : Int) (window : List TextSpan),
        evalWindow page window cfg thr = some y := by
  unfold stitchCandidates
  apply foldl_preserve
    (P := fun acc => ∀ y ∈ acc,
      ∃ (page : Int) (window : List TextSpan), evalWindow page window cfg thr = some y)
  · intro acc pg hacc
    apply foldl_preserve
      (P := fun acc => ∀ y ∈ acc,
        ∃ (page : Int) (window : List TextSpan), evalWindow page window cfg thr = some y)
    · intro acc2 line hacc2
      apply foldl_preserve
        (P := fun acc => ∀ y ∈ acc,
          ∃ (page : Int) (window : List TextSpan), evalWindow page window cfg thr = some y)
      · intro acc3 window hacc3
        cases heval : evalWindow pg.1 window cfg thr with
        | none => exact hacc3
        | some km =>
            apply upsert_forall _ _ _ hacc3
            exact ⟨pg.1, window, by rw [heval]⟩
      · exact hacc2
    · exact hacc
  · intro y hy
    exact absurd hy (by simp)

/-- Every stitched detection is the detection of a candidate record produced
by some successfully classified window. -/
theorem stitch_mem (spans : List TextSpan) (cfg : CardPanConfig) (thr : ℚ)
    (d : DetectionResult) (h : d ∈ stitchOcrSpans spans cfg thr) :
    ∃ (page : Int) (window : List TextSpan) (k : Int × String) (m : StitchMeta),
      evalWindow page window cfg thr = some (k, m) ∧ d = m.detection := by
  unfold stitchOcrSpans at h
  dsimp only at h
  split at h
  · exact absurd h (by simp)
  · obtain ⟨x, hx, hxd⟩ := List.mem_map.mp h
    obtain ⟨page, window, hw⟩ := stitchCandidates_forall _ _ _ _ _ x hx
    exact ⟨page, window, x.1, x.2, hw, hxd.symm⟩

/-- C7: for an accepted window (all tokens digit-ish, gaps within limits)
normalizing to 13-19 digits: a checksum pass (after the optional b-to-6
fallback) yields a hit candidate tagged "stitch" and "luhn", with
"confusable:b->6" exactly when the fallback was used; a checksum fail yields
a suspicion tagged "near_pan" exactly when the average confidence is below
the suspicion threshold or the minimum token confidence is below the
minimum-token threshold, and otherwise the window is rejected silently. -/
theorem stitch_window_classification (page : Int) (window : List TextSpan)
    (cfg : CardPanConfig) (threshold : ℚ)
    (hd : window.all (fun s => isDigitish s.text cfg) = true)
    (hg : gapsWithinLimits window cfg = true)
    (h13 : 13 ≤ (normalizeStitchedCandidate (windowRaw window) cfg false).length)
    (h19 : (normalizeStitchedCandidate (windowRaw window) cfg false).length ≤ 19) :
    ((stitchFallback window cfg).1 = true →
      ∃ m : StitchMeta,
        evalWindow page window cfg threshold =
          some ((page, (stitchFallback window cfg).2.1), m) ∧
        m.detection.severity = "hit" ∧
        "stitch" ∈ m.detection.validators ∧ "luhn" ∈ m.detection.validators ∧
        ("confusable:b->6" ∈ m.detection.validators ↔
          (stitchFallback window cfg).2.2 = true)) ∧
    ((stitchFallback window cfg).1 = false →
      ((avgConf window < threshold ∨ minConf window < cfg.min_token_conf_threshold) →
        ∃ m : StitchMeta,
          evalWindow page window cfg threshold =
            some ((page, (stitchFallback window cfg).2.1), m) ∧
          m.detection.severity = "suspicion" ∧ "near_pan" ∈ m.detection.validators) ∧
      (¬(avgConf window < threshold ∨ minConf window < cfg.min_token_conf_threshold) →
        evalWindow page window cfg threshold = none)) := by
  unfold evalWindow
  rw [if_neg (not_not_intro hd), if_neg (not_not_intro hg)]
  dsimp only
  rw [if_neg (not_not_intro ⟨h13, h19⟩)]
  constructor
  · intro hfb
    rw [if_pos hfb]
    refine ⟨_, rfl, rfl, by simp, by simp, ?_⟩
    cases hb : (stitchFallback window cfg).2.2 <;> simp [hb]
  · intro hfb
    rw [if_neg (by rw [hfb]; exact Bool.false_ne_true)]
    constructor
    · intro hlc
      have hcond : (decide (avgConf window < threshold) ||
          decide (minConf window < cfg.min_token_conf_threshold)) = true := by
        rcases hlc with h | h <;> simp [h]
      rw [if_pos hcond]
      exact ⟨_, rfl, rfl, by simp⟩
    · intro hlc
      push_neg at hlc
      have hcond : (decide (avgConf window < threshold) ||
          decide (minConf window < cfg.min_token_conf_threshold)) = false := by
        simp [hlc.1, hlc.2]
      rw [if_neg (by rw [hcond]; exact Bool.false_ne_true)]

/-- The window of the repository's stitch test: four OCR tokens whose
concatenation passes Luhn only through the b-to-6 fallback. -/
def stitchDemoWindow : List TextSpan :=
  [⟨"4000", ⟨0, 0, 40, 20⟩, 0, "ocr", some (mkRat 19 20)⟩,
   ⟨"123%", ⟨45, 0, 85, 20⟩, 0, "ocr", some (mkRat 3 5)⟩,
   ⟨"Sb78", ⟨90, 0, 130, 20⟩, 0, "ocr", some (mkRat 13 20)⟩,
   ⟨"9017", ⟨135, 0, 175, 20⟩, 0, "ocr", some (mkRat 9 10)⟩]

/-- The configuration of the repository's stitch test (b-to-6 recovery on). -/
def cfgStitchB6 : CardPanConfig := { allow_lowercase_b_to_6 := true }

/-- Witness for C7 at the repository's stitch-test window. -/
theorem stitch_window_classification_witness :
    ∃ m : StitchMeta,
      evalWindow 0 stitchDemoWindow cfgStitchB6 (mkRat 3 4) =
        some ((0, (stitchFallback stitchDemoWindow cfgStitchB6).2.1), m) ∧
      m.detection.severity = "hit" ∧
      "stitch" ∈ m.detection.validators ∧ "luhn" ∈ m.detection.validators ∧
      ("confusable:b->6" ∈ m.detection.validators ↔
        (stitchFallback stitchDemoWindow cfgStitchB6).2.2 = true) :=
  (stitch_window_classification 0 stitchDemoWindow cfgStitchB6 (mkRat 3 4)
    (by decide) (by decide) (by decide) (by decide)).1 (by decide)

/-- Every find_card_pans detection comes from a single-span candidate
classification or from a classified stitched window. -/
theorem findCardPans_mem (spans : List TextSpan) (cfg : CardPanConfig)
    (d : DetectionResult) (h : d ∈ findCardPans spans cfg) :
    (∃ span ∈ spans, ∃ raw, processCandidate span cfg
        (qmax 0 (qmin 1 cfg.ocr_conf_suspicion_threshold)) raw = some d) ∨
    (∃ (page : Int) (window : List TextSpan) (k : Int × String) (m : StitchMeta),
      evalWindow page window cfg (qmax 0 (qmin 1 cfg.ocr_conf_suspicion_threshold)) =
        some (k, m) ∧ d = m.detection) := by
  unfold findCardPans at h
  dsimp only at h
  rcases List.mem_append.mp h with h1 | h2
  · obtain ⟨l, hl, hdl⟩ := List.mem_flatten.mp h1
    obtain ⟨span, hsp, rfl⟩ := List.mem_map.mp hl
    obtain ⟨raw, hr⟩ := singleSpan_mem span cfg _ d hdl
    exact Or.inl ⟨span, hsp, raw, hr⟩
  · exact Or.inr (stitch_mem spans cfg _ d h2)

/-- C4 amended: every detection of find_card_pans satisfies the invariant
(hit carries "luhn", suspicion never does); for the ROI entry point a hit
still carries "luhn", but a suspicion may carry it — exactly the Luhn-valid
low-confidence downgrade, which always adds "low_conf" alongside. -/
theorem detection_severity_validator_tags :
    (∀ (spans : List TextSpan) (cfg : CardPanConfig), ∀ d ∈ findCardPans spans cfg,
      (d.severity = "hit" → "luhn" ∈ d.validators) ∧
      (d.severity = "suspicion" → "luhn" ∉ d.validators)) ∧
    (∀ (text : String) (conf : Option ℚ) (bbox : Box) (page : Int),
      ∀ d ∈ findPanCandidatesFromRoiText text conf bbox page,
      (d.severity = "hit" → "luhn" ∈ d.validators) ∧
      (d.severity = "suspicion" → "luhn" ∈ d.validators → "low_conf" ∈ d.validators)) := by
  constructor
  · intro spans cfg d hd
    rcases findCardPans_mem spans cfg d hd with
      ⟨span, _, raw, hp⟩ | ⟨page, window, k, m, hw, rfl⟩
    · obtain ⟨_, _, _, _, _, hsv⟩ := processCandidate_spec _ _ _ _ _ hp
      rcases hsv with ⟨hs, hv⟩ | ⟨hs, hv⟩
      · exact ⟨fun _ => by rw [hv]; simp,
          fun hsusp => absurd (hs.symm.trans hsusp) (by decide)⟩
      · exact ⟨fun hhit => absurd (hs.symm.trans hhit) (by decide),
          fun _ => by rw [hv]; decide⟩
    · obtain ⟨_, _, _, hsv⟩ := evalWindow_spec _ _ _ _ _ _ hw
      rcases hsv with ⟨hs, hv⟩ | ⟨hs, hv⟩
      · exact ⟨fun _ => hv, fun hsusp => absurd (hs.symm.trans hsusp) (by decide)⟩
      · exact ⟨fun hhit => absurd (hs.symm.trans hhit) (by decide),
          fun _ => by rw [hv]; decide⟩
  · intro text conf bbox page d hd
    unfold findPanCandidatesFromRoiText at hd
    split at hd
    · exact absurd hd (by simp)
    · obtain ⟨cand, _, hc⟩ := List.mem_filterMap.mp hd
      dsimp only at hc
      split at hc
      · exact absurd hc (by simp)
      · have hX := (Option.some.inj hc)
        subst hX
        by_cases hp : luhn (normalizeCandidate cand true) = true
        · by_cases hcnote : conf.getD 0 < mkRat 1 2
          · simp [hp, hcnote]
          · simp [hp, hcnote]
        · simp [hp]

/-- Witness for C4 at a concrete Luhn-valid span: the resulting hit detection
carries the "luhn" validator. -/
theorem detection_severity_validator_tags_witness :
    "luhn" ∈ (⟨"card_pan", "**** **** **** 4242", "4242424242424242", ⟨10, 20, 200, 40⟩,
      0, "text", ["luhn"], "hit"⟩ : DetectionResult).validators :=
  (detection_severity_validator_tags.1
    [⟨"Card 4242 4242 4242 4242 abcdefgh", ⟨10, 20, 200, 40⟩, 0, "text", none⟩] {}
    ⟨"card_pan", "**** **** **** 4242", "4242424242424242", ⟨10, 20, 200, 40⟩,
      0, "text", ["luhn"], "hit"⟩ (by decide)).1 rfl

/-- C5 amended: every non-stitched find_card_pans detection carries a raw
13-19 digit string, and every detection's display text is the mask of a 13-19
digit string (for stitched detections the raw field is instead the joined
window text); every ROI detection carries a raw 13-19 digit string. -/
theorem detection_digit_length_invariant :
    (∀ (spans : List TextSpan) (cfg : CardPanConfig), ∀ d ∈ findCardPans spans cfg,
      ("stitch" ∉ d.validators →
        13 ≤ d.raw.length ∧ d.raw.length ≤ 19 ∧ d.raw.data.all Char.isDigit = true) ∧
      (∃ digits : String, 13 ≤ digits.length ∧ digits.length ≤ 19 ∧
        digits.data.all Char.isDigit = true ∧ d.text = mask digits)) ∧
    (∀ (text : String) (conf : Option ℚ) (bbox : Box) (page : Int),
      ∀ d ∈ findPanCandidatesFromRoiText text conf bbox page,
      13 ≤ d.raw.length ∧ d.raw.length ≤ 19 ∧ d.raw.data.all Char.isDigit = true ∧
        d.text = mask d.raw) := by
  constructor
  · intro spans cfg d hd
    rcases findCardPans_mem spans cfg d hd with
      ⟨span, _, raw, hp⟩ | ⟨page, window, k, m, hw, rfl⟩
    · obtain ⟨_, h13, h19, hall, htext, _⟩ := processCandidate_spec _ _ _ _ _ hp
      exact ⟨fun _ => ⟨h13, h19, hall⟩, d.raw, h13, h19, hall, htext⟩
    · obtain ⟨_, ⟨digits, hd13, hd19, hdall, htext, _⟩, hstitch, _⟩ :=
        evalWindow_spec _ _ _ _ _ _ hw
      exact ⟨fun hns => absurd hstitch hns, digits, hd13, hd19, hdall, htext⟩
  · intro text conf bbox page d hd
    unfold findPanCandidatesFromRoiText at hd
    split at hd
    · exact absurd hd (by simp)
    · obtain ⟨cand, _, hc⟩ := List.mem_filterMap.mp hd
      dsimp only at hc
      split at hc
      · exact absurd hc (by simp)
      · rename_i hlen
        rw [not_not] at hlen
        have hX := (Option.some.inj hc)
        subst hX
        exact ⟨hlen.1, hlen.2, normalizeCandidate_all_isDigit _ _, rfl⟩

/-- Witness for C5 at a concrete ROI text: the hit detection raw is the
16-digit PAN and the display text is its mask. -/
theorem detection_digit_length_invariant_witness :
    13 ≤ ("4111111111111111").length ∧ ("4111111111111111").length ≤ 19 ∧
    ("4111111111111111").data.all Char.isDigit = true ∧
    ("**** **** **** 1111" : String) = mask "4111111111111111" :=
  (detection_digit_length_invariant.2 "Card 4111 1111 1111 1111" (some (mkRat 9 10))
    ⟨0, 0, 100, 40⟩ 0
    ⟨"card_pan", "**** **** **** 1111", "4111111111111111", ⟨0, 0, 100, 40⟩, 0,
      "roi_ocr", ["regex", "roi", "luhn"], "hit"⟩ (by decide))

/-- The chunks of four concatenate back to the original list. -/
theorem chunks4_flatten : ∀ l : List Char, (chunks4 l).flatten = l
  | [] => rfl
  | [_] => rfl
  | [_, _] => rfl
  | [_, _, _] => rfl
  | a :: b :: c :: d :: rest => by
      simp only [chunks4, List.flatten_cons, List.cons_append, List.nil_append,
        chunks4_flatten rest]

/-- Joining with spaces keeps every character of the chunks. -/
theorem mem_joinSpace_of_mem_flatten :
    ∀ (cs : List (List Char)) (c : Char), c ∈ cs.flatten → c ∈ joinSpace cs
  | [], _, h => by simp at h
  | [x], c, h => by simpa [joinSpace] using h
  | x :: y :: rest, c, h => by
      rw [List.flatten_cons, List.mem_append] at h
      rw [joinSpace, List.mem_append]
      rcases h with h | h
      · exact Or.inl h
      · exact Or.inr (List.mem_cons_of_mem _ (mem_joinSpace_of_mem_flatten (y :: rest) c h))

/-- Joining with spaces adds no character satisfying a predicate that rejects
the space. -/
theorem countP_joinSpace (p : Char → Bool) (hp : p ' ' = false) :
    ∀ cs : List (List Char), (joinSpace cs).countP p = cs.flatten.countP p
  | [] => rfl
  | [x] => by simp [joinSpace]
  | x :: y :: rest => by
      rw [joinSpace, List.flatten_cons, List.countP_append, List.countP_append,
        List.countP_cons, countP_joinSpace p hp (y :: rest), hp]
      simp

/-- Sanitization never turns a character into an allowed one. -/
theorem sanitizeChar_allowed (prev : Option Char) (ch : Char) (next : Option Char)
    (h : isAllowedPatternChar (sanitizeChar prev ch next) = true) :
    isAllowedPatternChar ch = true := by
  unfold sanitizeChar at h
  split at h
  · exact h
  · dsimp only at h
    split at h
    · split at h
      · exact h
      · exact absurd h (by decide)
    · exact absurd h (by decide)

/-- The sanitized text has no more allowed characters than the raw text. -/
theorem countP_sanitizeGo_le :
    ∀ (l : List Char) (prev : Option Char),
      (sanitizeGo prev l).countP isAllowedPatternChar ≤ l.countP isAllowedPatternChar
  | [], _ => le_refl _
  | ch :: rest, prev => by
      rw [sanitizeGo, List.countP_cons, List.countP_cons]
      by_cases hs : isAllowedPatternChar (sanitizeChar prev ch rest.head?) = true
      · rw [if_pos hs, if_pos (sanitizeChar_allowed _ _ _ hs)]
        exact Nat.add_le_add (countP_sanitizeGo_le rest (some ch)) (le_refl 1)
      · rw [if_neg hs]
        exact le_trans (by simpa using countP_sanitizeGo_le rest (some ch))
          (Nat.le_add_right _ _)

/-- The separator scan never moves backwards. -/
theorem skipSepsFrom_ge (s : List Char) :
    ∀ (fuel j : Nat), j ≤ skipSepsFrom s fuel j
  | 0, _ => le_refl _
  | fuel + 1, j => by
      rw [skipSepsFrom]
      split
      · split
        · exact le_trans (Nat.le_succ j) (skipSepsFrom_ge s fuel (j + 1))
        · exact le_refl _
      · exact le_refl _

/-- Dropping a prefix is dropped further from a longer prefix. -/
theorem countP_drop_mono (s : List Char) (p : Char → Bool) {i j : Nat} (h : i ≤ j) :
    (s.drop j).countP p ≤ (s.drop i).countP p := by
  have hd : s.drop j = (s.drop i).drop (j - i) := by
    rw [List.drop_drop]
    congr 1
    omega
  rw [hd]
  exact (List.drop_sublist _ _).countP_le p

/-- A list at an index decomposes into that element and the further drop. -/
theorem drop_eq_getD_cons :
    ∀ (l : List Char) (i : Nat), i < l.length → l.drop i = l.getD i ' ' :: l.drop (i + 1)
  | [], i, h => by simp at h
  | a :: t, 0, _ => rfl
  | a :: t, i + 1, h => by
      rw [List.drop_succ_cons]
      have := drop_eq_getD_cons t i (by simp at h; omega)
      simp only [List.getD_cons_succ]
      rw [this]
      rfl

/-- The token chain of the PAN_RE model is bounded by the number of allowed
characters from its start position. -/
theorem chainFrom_length_le (s : List Char) :
    ∀ (fuel pos : Nat),
      (chainFrom s fuel pos).length ≤ (s.drop pos).countP isAllowedPatternChar
  | 0, _ => Nat.zero_le _
  | fuel + 1, pos => by
      rw [chainFrom]
      split
      · split
        · rename_i hlt hall
          rw [List.length_cons]
          have hge : pos + 1 ≤ skipSepsFrom s s.length (pos + 1) :=
            skipSepsFrom_ge s s.length (pos + 1)
          have h1 := chainFrom_length_le s fuel (skipSepsFrom s s.length (pos + 1))
          have h2 := countP_drop_mono s isAllowedPatternChar hge
          have h3 : (s.drop pos).countP isAllowedPatternChar =
              (s.drop (pos + 1)).countP isAllowedPatternChar + 1 := by
            rw [drop_eq_getD_cons s pos hlt, List.countP_cons, if_pos hall]
          omega
        · simp
      · simp

/-- A chain shorter than 13 admits no repetition count. -/
theorem findRepCount_eq_none (ps : List Nat) (h : ps.length < 13) :
    findRepCount ps = none := by
  unfold findRepCount
  dsimp only
  have h0 : min ps.length 19 + 1 - 13 = 0 := by
    have := Nat.min_le_left ps.length 19
    omega
  rw [h0]
  rfl

/-- No PAN_RE match can start anywhere in a text with fewer than 13 allowed
characters. -/
theorem matchAt_none (s : List Char) (i : Nat)
    (h : s.countP isAllowedPatternChar < 13) : matchAt s i = none := by
  unfold matchAt
  split
  · rfl
  · dsimp only
    have hlen : (chainFrom s s.length i).length < 13 := by
      have h1 := chainFrom_length_le s s.length i
      have h2 : (s.drop i).countP isAllowedPatternChar ≤ s.countP isAllowedPatternChar := by
        simpa using countP_drop_mono s isAllowedPatternChar (Nat.zero_le i)
      omega
    rw [findRepCount_eq_none _ hlen]

/-- The PAN_RE scanner finds nothing in a text with fewer than 13 allowed
characters. -/
theorem panFinditerAux_nil (s : List Char) (h : s.countP isAllowedPatternChar < 13) :
    ∀ (fuel i : Nat), panFinditerAux s fuel i = []
  | 0, _ => rfl
  | fuel + 1, i => by
      rw [panFinditerAux]
      split
      · rw [matchAt_none s i h]
        exact panFinditerAux_nil s h fuel (i + 1)
      · rfl

/-- Version of the previous fact for the top-level scanner. -/
theorem panFinditer_nil (s : List Char) (h : s.countP isAllowedPatternChar < 13) :
    panFinditer s = [] :=
  panFinditerAux_nil s h (s.length + 1) 0

/-- A single span never produces stitched detections (the minimum window size
is at least two). -/
theorem stitchOcrSpans_singleton (span : TextSpan) (cfg : CardPanConfig) (thr : ℚ) :
    stitchOcrSpans [span] cfg thr = [] := by
  have hw : windowsOfLine [span] (max 2 cfg.stitch_window_min)
      (max (max 2 cfg.stitch_window_min) cfg.stitch_window_max) = [] := by
    unfold windowsOfLine
    rw [if_pos]
    exact lt_of_lt_of_le Nat.one_lt_two (Nat.le_max_left _ _)
  have hsc : stitchCandidates [(span.page, [span])] cfg thr
      (max 2 cfg.stitch_window_min)
      (max (max 2 cfg.stitch_window_min) cfg.stitch_window_max) = [] := by
    unfold stitchCandidates
    rw [List.foldl_cons, List.foldl_nil]
    have hgl : groupLines [span] cfg.line_y_tol_px = [[span]] := rfl
    rw [hgl, List.foldl_cons, List.foldl_nil]
    have hso : sortStable (fun a b => decide (a.bbox.x0 ≤ b.bbox.x0)) [span] = [span] := rfl
    rw [hso, hw]
    rfl
  unfold stitchOcrSpans
  dsimp only
  by_cases hsrc : (lowerStr span.source == "ocr") = true
  · simp only [List.filter_cons, List.filter_nil, hsrc, if_true]
    rw [if_neg (by simp)]
    have hgp : groupByPage [span] = [(span.page, [span])] := rfl
    rw [hgp, hsc]
    rfl
  · rw [Bool.not_eq_true] at hsrc
    simp only [List.filter_cons, List.filter_nil, hsrc, if_false]
    rfl

/-- C10: the masked display the detector produces for a 13-19 digit string
always contains an asterisk, and running find_card_pans on a single span
holding that masked display yields no detection: the detector never
re-detects its own masked output. -/
theorem mask_not_redetected (digits : String) (h13 : 13 ≤ digits.length)
    (h19 : digits.length ≤ 19) (_hdig : digits.data.all Char.isDigit = true)
    (b : Box) (page : Int) (src : String) (conf : Option ℚ) (cfg : CardPanConfig) :
    '*' ∈ (mask digits).data ∧
    findCardPans [⟨mask digits, b, page, src, conf⟩] cfg = [] := by
  have hlen : digits.length = digits.data.length := rfl
  have hmasked : '*' ∈ List.replicate (digits.data.length - 4) '*' ++
      digits.data.drop (digits.data.length - 4) := by
    apply List.mem_append_left
    apply List.mem_replicate.mpr
    exact ⟨by omega, rfl⟩
  constructor
  · show '*' ∈ joinSpace (chunks4 (List.replicate (digits.data.length - 4) '*' ++
      digits.data.drop (digits.data.length - 4)))
    apply mem_joinSpace_of_mem_flatten
    rw [chunks4_flatten]
    exact hmasked
  · have hcount : ((mask digits).data).countP isAllowedPatternChar < 13 := by
      show (joinSpace (chunks4 (List.replicate (digits.data.length - 4) '*' ++
        digits.data.drop (digits.data.length - 4)))).countP isAllowedPatternChar < 13
      rw [countP_joinSpace isAllowedPatternChar (by decide), chunks4_flatten,
        List.countP_append]
      have hrep : (List.replicate (digits.data.length - 4) '*').countP
          isAllowedPatternChar = 0 := by
        apply List.countP_eq_zero.mpr
        intro a ha
        rw [(List.mem_replicate.mp ha).2]
        decide
      have hdrop : (digits.data.drop (digits.data.length - 4)).countP
          isAllowedPatternChar ≤ 4 := by
        have h1 := List.countP_le_length
          (p := isAllowedPatternChar) (l := digits.data.drop (digits.data.length - 4))
        rw [List.length_drop] at h1
        omega
      omega
    have hsan : (sanitizeText ((mask digits).data)).countP isAllowedPatternChar < 13 :=
      lt_of_le_of_lt (countP_sanitizeGo_le _ none) hcount
    have hsingle : ∀ thr, singleSpanDetections ⟨mask digits, b, page, src, conf⟩ cfg thr
        = [] := by
      intro thr
      unfold singleSpanDetections
      dsimp only
      rw [panFinditer_nil _ hsan]
      rfl
    unfold findCardPans
    dsimp only
    rw [List.map_cons, List.map_nil, hsingle, stitchOcrSpans_singleton]
    rfl

/-- Witness for C10 at the 16-digit PAN "4242424242424242". -/
theorem mask_not_redetected_witness :
    '*' ∈ (mask "4242424242424242").data ∧
    findCardPans [⟨mask "4242424242424242", ⟨0, 0, 100, 20⟩, 0, "ocr", some 1⟩] {} = [] :=
  mask_not_redetected "4242424242424242" (by decide) (by decide) (by decide)
    ⟨0, 0, 100, 20⟩ 0 "ocr" (some 1) {}

/-- Demonstration input for the PCI-lite pack: a text span with enough
characters and one Luhn-valid PAN. -/
def pciDemoSpan : TextSpan :=
  ⟨"Card 4242 4242 4242 4242 abcdefgh", ⟨10, 20, 200, 40⟩, 0, "text", none⟩

/-- The PCI-lite pack run in which redaction runs but re-detection on the
(unchanged) redacted artifact still finds the PAN. -/
def pciDemoReport : DecisionReport :=
  runPackPciLite "in.pdf" [pciDemoSpan] none none "highlight.pdf" "redacted.pdf"
    "report.json" [pciDemoSpan]

/-- C1: in the PCI-lite pack, a run whose re-detection after redaction still
finds a hit does end in REVIEW with the remains-after-redaction reason, but
the report retains the redacted artifact path instead of clearing it: the
assignment that should discard the reference is missing (the card-photo pack
performs it). -/
theorem pci_lite_remaining_hit_keeps_redacted_artifact_reference :
    (findCardPans [pciDemoSpan] CARD_PAN_CFG).any (fun d => d.severity == "hit") = true ∧
    pciDemoReport.decision = "REVIEW" ∧
    pciDemoReport.reasons =
      [⟨"PAN_REMAINS_AFTER_REDACTION", "PAN still detectable after redaction."⟩] ∧
    pciDemoReport.artifacts.redacted_pdf = some "redacted.pdf" := by
  decide

end N2N
